import Mathlib

/-!
Verification of the Snowflake Safe NFT retrieval scripts.

This file gives a shallow embedding of the transfer-instruction builder
(`createMetaplexCoreTransferInstruction` and `verifyNFTInSafe` from the
snowflake retrieval script), of the retry loop (`executeProposal`), and of the
direct transfer pipeline (`transferNFT` from metaplex-core-nft-transfer.js),
and proves the testable properties of the specification against them.
-/

/-- Base58 rendering of a Solana public key.  The scripts compare keys through
their base58 strings (for instance `process.env.NFT_COLLECTION_ADDRESS ===
PublicKey.default.toString()`), so the string is a faithful identity. -/
structure PubKey where
  b58 : String
deriving DecidableEq

/-- Entry of an instruction's account list, mirroring the web3.js object
shape `{ pubkey, isWritable, isSigner }` used in the fallback builder. -/
structure AccountMeta where
  pubkey : PubKey
  isWritable : Bool
  isSigner : Bool
deriving DecidableEq

/-- A built instruction: program id, ordered account list, raw data bytes
(each a value below 256), mirroring `web3.TransactionInstruction`. -/
structure TransactionInstruction where
  programId : PubKey
  keys : List AccountMeta
  data : List Nat
deriving DecidableEq

/-- Error taxonomy of the specification.  The scripts throw plain `Error`
objects with descriptive messages; each thrown error is classified here by
the role the spec assigns to it, keeping the exact source message. -/
inductive TransferError where
  | configurationError (msg : String)
  | verificationError (msg : String)
  | submissionError (msg : String)
  | lowBalance
deriving DecidableEq

/-- The all-zero public key: `PublicKey.default`, which is also
`SystemProgram.programId` (both render to the same base58 string). -/
def PublicKey_default : PubKey := ⟨"11111111111111111111111111111111"⟩

/-- System program id used at account index 7 of the fallback builder. -/
def SystemProgram_programId : PubKey := ⟨"11111111111111111111111111111111"⟩

/-- Rent sysvar (`web3.SYSVAR_RENT_PUBKEY`), account index 8. -/
def SYSVAR_RENT_PUBKEY : PubKey := ⟨"SysvarRent111111111111111111111111111111111"⟩

/-- Instruction-introspection sysvar (`web3.SYSVAR_INSTRUCTIONS_PUBKEY`),
account index 9. -/
def SYSVAR_INSTRUCTIONS_PUBKEY : PubKey := ⟨"Sysvar1nstructions1111111111111111111111111"⟩

/-- Metaplex Core program id, from the script configuration section. -/
def METAPLEX_CORE_PROGRAM_ID : PubKey := ⟨"CoREENxT6tW1HoK8ypY1SxRMZTcVPm7R94rH4PZNhX7d"⟩

/-- Fixed 8-byte discriminator for the transfer operation:
`Buffer.from([116, 97, 188, 150, 133, 175, 148, 44])`. -/
def transferDiscriminator : List Nat := [116, 97, 188, 150, 133, 175, 148, 44]

/-- Little-endian byte encoding of a value into a fixed number of bytes,
embedding `new BN(v).toArrayLike(Buffer, le, len)`. -/
def leBytes : Nat → Nat → List Nat
  | _, 0 => []
  | v, Nat.succ len => v % 256 :: leBytes (v / 256) len

/-- Instruction data of the fallback builder:
`Buffer.concat([transferDiscriminator, someFlag, amountValue])` where
`someFlag = [1]` encodes `Option.Some` and the amount is `1` in 8 bytes LE. -/
def instructionData : List Nat := transferDiscriminator ++ 1 :: leBytes 1 8

/-- Instruction assembled by the fallback path of
`createMetaplexCoreTransferInstruction`: the ten accounts in source order
with their source `isWritable` / `isSigner` flags, and the fixed data. -/
def transferInstructionOf (safeSignerAddress assetAddress destination collectionAddress :
    PubKey) : TransactionInstruction :=
  { programId := METAPLEX_CORE_PROGRAM_ID
    keys := [
      { pubkey := assetAddress, isWritable := true, isSigner := false },
      { pubkey := safeSignerAddress, isWritable := false, isSigner := true },
      { pubkey := PublicKey_default, isWritable := false, isSigner := false },
      { pubkey := collectionAddress, isWritable := false, isSigner := false },
      { pubkey := safeSignerAddress, isWritable := false, isSigner := false },
      { pubkey := destination, isWritable := false, isSigner := false },
      { pubkey := safeSignerAddress, isWritable := true, isSigner := true },
      { pubkey := SystemProgram_programId, isWritable := false, isSigner := false },
      { pubkey := SYSVAR_RENT_PUBKEY, isWritable := false, isSigner := false },
      { pubkey := SYSVAR_INSTRUCTIONS_PUBKEY, isWritable := false, isSigner := false }]
    data := instructionData }

/-- The manual fallback builder `createMetaplexCoreTransferInstruction`.
`envCollection` models `process.env.NFT_COLLECTION_ADDRESS` (`none` for an
unset or empty variable).  The source first validates the collection: an
absent variable or one equal to `PublicKey.default.toString()` throws
`Missing or invalid NFT collection address configuration.` before anything
else happens (the builder performs no network access in either outcome).
Otherwise it assembles the fixed ten-account instruction.  (The Umi SDK
branch of the source delegates to an external library required to emit the
same bytes; the claims target the fallback construction.) -/
def createMetaplexCoreTransferInstruction (envCollection : Option PubKey)
    (safeSignerAddress assetAddress destination : PubKey) :
    Except TransferError TransactionInstruction :=
  match envCollection with
  | none => Except.error (TransferError.configurationError
      "Missing or invalid NFT collection address configuration.")
  | some collectionAddress =>
    if collectionAddress = PublicKey_default then
      Except.error (TransferError.configurationError
        "Missing or invalid NFT collection address configuration.")
    else
      Except.ok (transferInstructionOf safeSignerAddress assetAddress destination
        collectionAddress)

/-- C1 (amended): with a supplied collection reference different from the
"unset" sentinel, the builder succeeds and its account list has exactly 10
entries in the fixed order asset, current owner, delegate, collection,
update authority, new owner, payer, system program, rent sysvar,
instructions sysvar; exactly the current owner (index 1, not writable) and
the payer (index 6, writable) are signers, the asset (index 0) is writable,
and every other account is neither signer nor writable. -/
theorem c1_account_layout (coll safeSigner asset dest : PubKey)
    (h : coll ≠ PublicKey_default) :
    createMetaplexCoreTransferInstruction (some coll) safeSigner asset dest =
      Except.ok (transferInstructionOf safeSigner asset dest coll) ∧
    (transferInstructionOf safeSigner asset dest coll).keys = [
      { pubkey := asset, isWritable := true, isSigner := false },
      { pubkey := safeSigner, isWritable := false, isSigner := true },
      { pubkey := PublicKey_default, isWritable := false, isSigner := false },
      { pubkey := coll, isWritable := false, isSigner := false },
      { pubkey := safeSigner, isWritable := false, isSigner := false },
      { pubkey := dest, isWritable := false, isSigner := false },
      { pubkey := safeSigner, isWritable := true, isSigner := true },
      { pubkey := SystemProgram_programId, isWritable := false, isSigner := false },
      { pubkey := SYSVAR_RENT_PUBKEY, isWritable := false, isSigner := false },
      { pubkey := SYSVAR_INSTRUCTIONS_PUBKEY, isWritable := false, isSigner := false }] ∧
    (transferInstructionOf safeSigner asset dest coll).keys.length = 10 ∧
    (transferInstructionOf safeSigner asset dest coll).keys.map AccountMeta.isSigner =
      [false, true, false, false, false, false, true, false, false, false] ∧
    (transferInstructionOf safeSigner asset dest coll).keys.map AccountMeta.isWritable =
      [true, false, false, false, false, false, true, false, false, false] := by
  refine ⟨?_, rfl, rfl, rfl, rfl⟩
  simp [createMetaplexCoreTransferInstruction, h]

/-- Witness for C1 at concrete keys whose collection differs from the
sentinel. -/
theorem c1_account_layout_witness :
    (PubKey.mk "Collection11111111111111111111111111111111111") ≠ PublicKey_default ∧
    (createMetaplexCoreTransferInstruction
        (some ⟨"Collection11111111111111111111111111111111111"⟩) ⟨"Signer"⟩ ⟨"Asset"⟩
        ⟨"Dest"⟩ =
      Except.ok (transferInstructionOf ⟨"Signer"⟩ ⟨"Asset"⟩ ⟨"Dest"⟩
        ⟨"Collection11111111111111111111111111111111111"⟩) ∧
    (transferInstructionOf ⟨"Signer"⟩ ⟨"Asset"⟩ ⟨"Dest"⟩
        ⟨"Collection11111111111111111111111111111111111"⟩).keys = [
      { pubkey := ⟨"Asset"⟩, isWritable := true, isSigner := false },
      { pubkey := ⟨"Signer"⟩, isWritable := false, isSigner := true },
      { pubkey := PublicKey_default, isWritable := false, isSigner := false },
      { pubkey := ⟨"Collection11111111111111111111111111111111111"⟩, isWritable := false,
        isSigner := false },
      { pubkey := ⟨"Signer"⟩, isWritable := false, isSigner := false },
      { pubkey := ⟨"Dest"⟩, isWritable := false, isSigner := false },
      { pubkey := ⟨"Signer"⟩, isWritable := true, isSigner := true },
      { pubkey := SystemProgram_programId, isWritable := false, isSigner := false },
      { pubkey := SYSVAR_RENT_PUBKEY, isWritable := false, isSigner := false },
      { pubkey := SYSVAR_INSTRUCTIONS_PUBKEY, isWritable := false, isSigner := false }] ∧
    (transferInstructionOf ⟨"Signer"⟩ ⟨"Asset"⟩ ⟨"Dest"⟩
        ⟨"Collection11111111111111111111111111111111111"⟩).keys.length = 10 ∧
    (transferInstructionOf ⟨"Signer"⟩ ⟨"Asset"⟩ ⟨"Dest"⟩
        ⟨"Collection11111111111111111111111111111111111"⟩).keys.map AccountMeta.isSigner =
      [false, true, false, false, false, false, true, false, false, false] ∧
    (transferInstructionOf ⟨"Signer"⟩ ⟨"Asset"⟩ ⟨"Dest"⟩
        ⟨"Collection11111111111111111111111111111111111"⟩).keys.map AccountMeta.isWritable =
      [true, false, false, false, false, false, true, false, false, false]) :=
  ⟨by decide, c1_account_layout ⟨"Collection11111111111111111111111111111111111"⟩
    ⟨"Signer"⟩ ⟨"Asset"⟩ ⟨"Dest"⟩ (by decide)⟩

/-- C1 counterexample: with no collection supplied (the setting the claim
calls "no collection requirement"), the builder produces no instruction at
all — it fails with the configuration error — so it does not produce a
10-account instruction. -/
theorem c1_no_collection_counterexample :
    createMetaplexCoreTransferInstruction none ⟨"Signer"⟩ ⟨"Asset"⟩ ⟨"Dest"⟩ =
      Except.error (TransferError.configurationError
        "Missing or invalid NFT collection address configuration.") ∧
    ¬ ∃ ix, createMetaplexCoreTransferInstruction none ⟨"Signer"⟩ ⟨"Asset"⟩ ⟨"Dest"⟩ =
        Except.ok ix := by
  refine ⟨rfl, ?_⟩
  rintro ⟨ix, hix⟩
  simp [createMetaplexCoreTransferInstruction] at hix

/-- C2: every instruction the builder produces carries exactly 17 data
bytes: the fixed 8-byte transfer discriminator, then a flag byte equal to
1, then exactly 8 bytes encoding the unsigned integer 1 little-endian. -/
theorem c2_instruction_data (envCollection : Option PubKey)
    (safeSigner asset dest : PubKey) (ix : TransactionInstruction)
    (h : createMetaplexCoreTransferInstruction envCollection safeSigner asset dest =
      Except.ok ix) :
    ix.data.length = 17 ∧
    ix.data = transferDiscriminator ++ 1 :: leBytes 1 8 ∧
    transferDiscriminator = [116, 97, 188, 150, 133, 175, 148, 44] ∧
    transferDiscriminator.length = 8 ∧
    leBytes 1 8 = [1, 0, 0, 0, 0, 0, 0, 0] ∧
    (leBytes 1 8).length = 8 := by
  cases envCollection with
  | none => simp [createMetaplexCoreTransferInstruction] at h
  | some c =>
    by_cases hc : c = PublicKey_default
    · simp [createMetaplexCoreTransferInstruction, hc] at h
    · simp [createMetaplexCoreTransferInstruction, hc] at h
      subst h
      exact ⟨rfl, rfl, rfl, rfl, rfl, rfl⟩

/-- Witness for C2 at a concrete successful build. -/
theorem c2_instruction_data_witness :
    (createMetaplexCoreTransferInstruction (some ⟨"Collection"⟩) ⟨"Signer"⟩ ⟨"Asset"⟩
        ⟨"Dest"⟩ =
      Except.ok (transferInstructionOf ⟨"Signer"⟩ ⟨"Asset"⟩ ⟨"Dest"⟩ ⟨"Collection"⟩)) ∧
    ((transferInstructionOf ⟨"Signer"⟩ ⟨"Asset"⟩ ⟨"Dest"⟩ ⟨"Collection"⟩).data.length = 17 ∧
    (transferInstructionOf ⟨"Signer"⟩ ⟨"Asset"⟩ ⟨"Dest"⟩ ⟨"Collection"⟩).data =
      transferDiscriminator ++ 1 :: leBytes 1 8 ∧
    transferDiscriminator = [116, 97, 188, 150, 133, 175, 148, 44] ∧
    transferDiscriminator.length = 8 ∧
    leBytes 1 8 = [1, 0, 0, 0, 0, 0, 0, 0] ∧
    (leBytes 1 8).length = 8) :=
  ⟨rfl, c2_instruction_data (some ⟨"Collection"⟩) ⟨"Signer"⟩ ⟨"Asset"⟩ ⟨"Dest"⟩
    (transferInstructionOf ⟨"Signer"⟩ ⟨"Asset"⟩ ⟨"Dest"⟩ ⟨"Collection"⟩) rfl⟩

/-- C4: when the collection reference is absent or equals the sentinel key,
the builder fails with the configuration error; no instruction is
constructed (the result carries none), and the check precedes any other
work of the builder, which performs no network access. -/
theorem c4_collection_required (safeSigner asset dest : PubKey) :
    createMetaplexCoreTransferInstruction none safeSigner asset dest =
      Except.error (TransferError.configurationError
        "Missing or invalid NFT collection address configuration.") ∧
    createMetaplexCoreTransferInstruction (some PublicKey_default) safeSigner asset dest =
      Except.error (TransferError.configurationError
        "Missing or invalid NFT collection address configuration.") := by
  exact ⟨rfl, by simp [createMetaplexCoreTransferInstruction]⟩

/-- C8: the builder is deterministic; two calls on identical inputs agree
on the whole result and componentwise on program id, account list and data
bytes. -/
theorem c8_deterministic (envCollection : Option PubKey) (safeSigner asset dest : PubKey) :
    createMetaplexCoreTransferInstruction envCollection safeSigner asset dest =
      createMetaplexCoreTransferInstruction envCollection safeSigner asset dest ∧
    (createMetaplexCoreTransferInstruction envCollection safeSigner asset dest).map
        TransactionInstruction.programId =
      (createMetaplexCoreTransferInstruction envCollection safeSigner asset dest).map
        TransactionInstruction.programId ∧
    (createMetaplexCoreTransferInstruction envCollection safeSigner asset dest).map
        TransactionInstruction.keys =
      (createMetaplexCoreTransferInstruction envCollection safeSigner asset dest).map
        TransactionInstruction.keys ∧
    (createMetaplexCoreTransferInstruction envCollection safeSigner asset dest).map
        TransactionInstruction.data =
      (createMetaplexCoreTransferInstruction envCollection safeSigner asset dest).map
        TransactionInstruction.data :=
  ⟨rfl, rfl, rfl, rfl⟩

/-- C10: in every instruction the fallback builder produces, the safe
signer key supplied as current owner sits at account indices 1 (current
owner, non-writable signer), 4 (update authority, neither) and 6 (payer,
writable signer). -/
theorem c10_safe_signer_roles (envCollection : Option PubKey)
    (safeSigner asset dest : PubKey) (ix : TransactionInstruction)
    (h : createMetaplexCoreTransferInstruction envCollection safeSigner asset dest =
      Except.ok ix) :
    ix.keys[1]? = some { pubkey := safeSigner, isWritable := false, isSigner := true } ∧
    ix.keys[4]? = some { pubkey := safeSigner, isWritable := false, isSigner := false } ∧
    ix.keys[6]? = some { pubkey := safeSigner, isWritable := true, isSigner := true } := by
  cases envCollection with
  | none => simp [createMetaplexCoreTransferInstruction] at h
  | some c =>
    by_cases hc : c = PublicKey_default
    · simp [createMetaplexCoreTransferInstruction, hc] at h
    · simp [createMetaplexCoreTransferInstruction, hc] at h
      subst h
      exact ⟨rfl, rfl, rfl⟩

/-- Witness for C10 at a concrete successful build. -/
theorem c10_safe_signer_roles_witness :
    (createMetaplexCoreTransferInstruction (some ⟨"Coll"⟩) ⟨"SafeSigner"⟩ ⟨"Asset"⟩
        ⟨"Dest"⟩ =
      Except.ok (transferInstructionOf ⟨"SafeSigner"⟩ ⟨"Asset"⟩ ⟨"Dest"⟩ ⟨"Coll"⟩)) ∧
    ((transferInstructionOf ⟨"SafeSigner"⟩ ⟨"Asset"⟩ ⟨"Dest"⟩ ⟨"Coll"⟩).keys[1]? =
      some { pubkey := ⟨"SafeSigner"⟩, isWritable := false, isSigner := true } ∧
    (transferInstructionOf ⟨"SafeSigner"⟩ ⟨"Asset"⟩ ⟨"Dest"⟩ ⟨"Coll"⟩).keys[4]? =
      some { pubkey := ⟨"SafeSigner"⟩, isWritable := false, isSigner := false } ∧
    (transferInstructionOf ⟨"SafeSigner"⟩ ⟨"Asset"⟩ ⟨"Dest"⟩ ⟨"Coll"⟩).keys[6]? =
      some { pubkey := ⟨"SafeSigner"⟩, isWritable := true, isSigner := true }) :=
  ⟨rfl, c10_safe_signer_roles (some ⟨"Coll"⟩) ⟨"SafeSigner"⟩ ⟨"Asset"⟩ ⟨"Dest"⟩
    (transferInstructionOf ⟨"SafeSigner"⟩ ⟨"Asset"⟩ ⟨"Dest"⟩ ⟨"Coll"⟩) rfl⟩

/-- Backoff delay before the retry following a failed attempt:
`5000 * Math.pow(1.5, attempt - 1)` milliseconds, as a rational. -/
def backoffDelay (attempt : Nat) : ℚ :=
  5000 * (3 / 2) ^ (attempt - 1)

/-- Observable trace of one run of the retry loop: how many submission
attempts were made, which delays were inserted between successive attempts,
and the final outcome (`Except.ok none` models the loop returning without a
transaction id, as happens with an empty attempt budget). -/
structure RetryTrace (ε τ : Type) where
  attempts : Nat
  delays : List ℚ
  outcome : Except ε (Option τ)

/-- Body of the `for (let attempt = 1; attempt <= maxRetries; attempt++)`
loop of `executeProposal`.  `submit i` is the outcome the submitter yields
on attempt `i`; `remaining` counts the loop iterations still allowed, so
`remaining = 0` exits the loop (returning no transaction id) and a failure
with `remaining = 1` is the final attempt, whose error is rethrown; earlier
failures insert `backoffDelay attempt` and continue. -/
def executeProposalAux {ε τ : Type} (submit : Nat → Except ε τ) (attempt : Nat) :
    Nat → RetryTrace ε τ
  | 0 => ⟨0, [], Except.ok none⟩
  | Nat.succ r =>
    match submit attempt with
    | Except.ok txid => ⟨1, [], Except.ok (some txid)⟩
    | Except.error e =>
      if r = 0 then ⟨1, [], Except.error e⟩
      else
        let t := executeProposalAux submit (attempt + 1) r
        ⟨t.attempts + 1, backoffDelay attempt :: t.delays, t.outcome⟩

/-- The retry orchestrator `executeProposal(safe, proposalAddress,
maxRetries)`: attempts start at 1 and the budget is `maxRetries`. -/
def executeProposal {ε τ : Type} (submit : Nat → Except ε τ) (maxRetries : Nat) :
    RetryTrace ε τ :=
  executeProposalAux submit 1 maxRetries

/-- Closed form of the loop when every attempt fails: with budget `r + 1`
starting at attempt `a`, the loop makes `r + 1` attempts, inserts the
backoff delays of attempts `a, a+1, ..., a+r-1`, and ends with the error of
the last attempt `a + r`. -/
theorem executeProposalAux_allFail {ε τ : Type} (err : Nat → ε) (r : Nat) : ∀ a : Nat,
    executeProposalAux (τ := τ) (fun i => Except.error (err i)) a (r + 1) =
      ⟨r + 1, (List.range r).map (fun k => backoffDelay (a + k)),
        Except.error (err (a + r))⟩ := by
  induction r with
  | zero => intro a; simp [executeProposalAux]
  | succ n ih =>
    intro a
    have hstep : executeProposalAux (τ := τ) (fun i => Except.error (err i)) a (n + 1 + 1) =
        ⟨(executeProposalAux (τ := τ) (fun i => Except.error (err i)) (a + 1)
            (n + 1)).attempts + 1,
          backoffDelay a :: (executeProposalAux (τ := τ) (fun i => Except.error (err i))
            (a + 1) (n + 1)).delays,
          (executeProposalAux (τ := τ) (fun i => Except.error (err i)) (a + 1)
            (n + 1)).outcome⟩ := by
      simp [executeProposalAux]
    rw [hstep, ih (a + 1)]
    have h1 : a + 1 + n = a + (n + 1) := by omega
    have h2 : backoffDelay a :: (List.range n).map (fun k => backoffDelay (a + 1 + k)) =
        (List.range (n + 1)).map (fun k => backoffDelay (a + k)) := by
      rw [List.range_succ_eq_map, List.map_cons, List.map_map]
      refine congrArg₂ List.cons (by simp) (List.map_congr_left ?_)
      intro k _
      simp [Function.comp]
      exact congrArg backoffDelay (by omega)
    rw [h1, h2]

/-- C3: with attempt budget N at least 1 and a submitter failing
transiently on every attempt, the orchestrator performs exactly N
submission attempts, the delays inserted between successive attempts are
the strictly increasing sequence 5000 * 1.5 ^ (attempt - 1) for attempts
1, ..., N-1, and the run ends by raising the error observed on the last
(N-th) attempt. -/
theorem c3_retry_exhaustion {ε τ : Type} (err : Nat → ε) (N : Nat) (hN : 1 ≤ N) :
    (executeProposal (τ := τ) (fun i => Except.error (err i)) N).attempts = N ∧
    (executeProposal (τ := τ) (fun i => Except.error (err i)) N).delays =
      (List.range (N - 1)).map (fun k => (5000 : ℚ) * (3 / 2) ^ k) ∧
    (executeProposal (τ := τ) (fun i => Except.error (err i)) N).delays.Pairwise (· < ·) ∧
    (executeProposal (τ := τ) (fun i => Except.error (err i)) N).outcome =
      Except.error (err N) := by
  obtain ⟨M, rfl⟩ : ∃ M, N = M + 1 := ⟨N - 1, by omega⟩
  have h := executeProposalAux_allFail (τ := τ) err M 1
  have hdel : (List.range M).map (fun k => backoffDelay (1 + k)) =
      (List.range M).map (fun k => (5000 : ℚ) * (3 / 2) ^ k) := by
    refine List.map_congr_left ?_
    intro k _
    simp [backoffDelay]
  have hmono : ((List.range M).map (fun k => (5000 : ℚ) * (3 / 2) ^ k)).Pairwise (· < ·) := by
    refine List.Pairwise.map _ ?_ (List.pairwise_lt_range M)
    intro a b hab
    have hp : ((3 : ℚ) / 2) ^ a < (3 / 2) ^ b := by
      apply pow_lt_pow_right₀ (by norm_num) hab
    have h5 : (0 : ℚ) < 5000 := by norm_num
    exact (mul_lt_mul_left h5).2 hp
  refine ⟨?_, ?_, ?_, ?_⟩
  · rw [executeProposal, h]
  · rw [executeProposal, h]
    simpa using hdel
  · rw [executeProposal, h]
    simpa [hdel] using hmono
  · rw [executeProposal, h]
    simp [Nat.add_comm]

/-- Witness for C3 at budget 3 with a concrete always-failing submitter. -/
theorem c3_retry_exhaustion_witness :
    1 ≤ 3 ∧
    ((executeProposal (τ := Unit) (fun i => Except.error i) 3).attempts = 3 ∧
    (executeProposal (τ := Unit) (fun i => Except.error i) 3).delays =
      (List.range (3 - 1)).map (fun k => (5000 : ℚ) * (3 / 2) ^ k) ∧
    (executeProposal (τ := Unit) (fun i => Except.error i) 3).delays.Pairwise (· < ·) ∧
    (executeProposal (τ := Unit) (fun i => Except.error i) 3).outcome =
      Except.error 3) :=
  ⟨by norm_num, c3_retry_exhaustion (fun i => i) 3 (by norm_num)⟩

/-- C9: with a zero attempt budget the retry loop body never runs: zero
submission attempts, no delays, and the orchestrator returns without a
transaction id and without raising an error, whatever the submitter does. -/
theorem c9_zero_budget {ε τ : Type} (submit : Nat → Except ε τ) :
    executeProposal submit 0 = ⟨0, [], Except.ok none⟩ :=
  rfl

/-- On-chain state of a Metaplex Core asset as the direct-transfer script
reads it through `fetchAsset`: the owner wallet and the optional embedded
collection reference. -/
structure AssetState where
  owner : PubKey
  collection : Option PubKey
deriving DecidableEq

/-- Raw account info as `connection.getAccountInfo` returns it: the owner
program of the account and its data length. -/
structure AccountInfo where
  owner : PubKey
  dataLen : Nat
deriving DecidableEq

/-- Outcome of the client-side send: `sendAndConfirm` either yields a
signature or throws an error that the script catches and logs. -/
inductive SendOutcome where
  | sent (signature : String)
  | clientError (msg : String)
deriving DecidableEq

/-- Overall result the direct-transfer script returns: the early
"no transfer needed" string, `true` (success), or `false` (failure). -/
inductive TransferRunResult where
  | noTransferNeeded
  | success
  | failure
deriving DecidableEq

/-- Parameters the script assembles for `transferV1`, mirroring the
`transferParams` object (asset, owner, newOwner, optional collection, and
the numeric amount set to 1). -/
structure TransferV1Params where
  asset : PubKey
  owner : PubKey
  newOwner : PubKey
  collection : Option PubKey
  amount : Nat
deriving DecidableEq

/-- Observable trace of one run of `transferNFT`: the error raised inside
the main try block (caught, logged and classified per the spec taxonomy),
the transfer parameters built for `transferV1` if any, the client-side
sends performed (network writes), and the overall result. -/
structure TransferTrace where
  raised : Option TransferError
  builtParams : Option TransferV1Params
  sendOutcomes : List SendOutcome
  result : TransferRunResult
deriving DecidableEq

/-- Post-condition check of the script: `verifyAssetOwnership` (and the
second `fetchAsset` double check, and the re-verification in the outer
catch) compare the re-read owner field with the destination; the run
succeeds exactly when they match, and fails when the read yields no owner
or a different owner. -/
def verifyResult (postOwner : Option PubKey) (dest : PubKey) : TransferRunResult :=
  if postOwner = some dest then TransferRunResult.success else TransferRunResult.failure

/-- Minimum balance the script insists on: `0.01 * 10 ** 9` lamports. -/
def lowBalanceThreshold : Nat := 10000000

/-- The direct transfer pipeline `transferNFT` of
metaplex-core-nft-transfer.js, one run over a fixed environment:
`balance` is the wallet balance read at the start, `envCollection` models
`NFT_COLLECTION_ADDRESS`, `preAsset` the `fetchAsset` result before the
transfer (`none` when the asset is not found), `send` the outcome of the
single `sendAndConfirm` call if one is made, and `postOwner` the owner
field every post-submission read observes (the chain is quiescent apart
from this transfer, per the concurrency model of the spec).  Every error
thrown inside the main try block lands in the outer catch, which re-reads
ownership and still returns success when the read matches the destination;
the result therefore always comes from `verifyResult` except on the
"already owned by destination" short circuit. -/
def transferNFT (balance : Nat) (envCollection : Option PubKey)
    (preAsset : Option AssetState) (assetPk walletPk destPk : PubKey)
    (send : SendOutcome) (postOwner : Option PubKey) : TransferTrace :=
  if balance < lowBalanceThreshold then
    { raised := some TransferError.lowBalance, builtParams := none, sendOutcomes := [],
      result := verifyResult postOwner destPk }
  else
    match preAsset with
    | none =>
      { raised := some (TransferError.verificationError "Asset not found on chain"),
        builtParams := none, sendOutcomes := [], result := verifyResult postOwner destPk }
    | some asset =>
      if asset.owner = destPk then
        { raised := none, builtParams := none, sendOutcomes := [],
          result := TransferRunResult.noTransferNeeded }
      else if asset.owner ≠ walletPk then
        { raised := some (TransferError.verificationError
            "You are not the owner of this asset"),
          builtParams := none, sendOutcomes := [], result := verifyResult postOwner destPk }
      else
        { raised := none
          builtParams := some
            { asset := assetPk, owner := walletPk, newOwner := destPk,
              collection :=
                match envCollection with
                | some c => some c
                | none => asset.collection,
              amount := 1 }
          sendOutcomes := [send]
          result := verifyResult postOwner destPk }

/-- Verification step `verifyNFTInSafe` of the snowflake retrieval script:
false when the asset account does not exist or is not owned by the
Metaplex Core program, true otherwise; the main flow aborts before
creating the transfer proposal whenever it is false. -/
def verifyNFTInSafe (accountInfo : Option AccountInfo) : Bool :=
  match accountInfo with
  | none => false
  | some info => decide (info.owner = METAPLEX_CORE_PROGRAM_ID)

/-- C5: once a run reaches submission (balance sufficient, asset found,
not already owned by the destination, caller is the owner), exactly one
send is performed and the overall result is success precisely when the
post-submission read of the owner equals the destination — whatever the
client-side send reported.  A signature alone never yields success and a
client-side error never forces failure. -/
theorem c5_post_read_is_ground_truth (balance : Nat) (envCollection : Option PubKey)
    (asset : AssetState) (assetPk walletPk destPk : PubKey) (send : SendOutcome)
    (postOwner : Option PubKey)
    (hbal : ¬ balance < lowBalanceThreshold)
    (hnotOwned : asset.owner ≠ destPk) (hown : asset.owner = walletPk) :
    (transferNFT balance envCollection (some asset) assetPk walletPk destPk send
      postOwner).sendOutcomes = [send] ∧
    ((transferNFT balance envCollection (some asset) assetPk walletPk destPk send
        postOwner).result = TransferRunResult.success ↔ postOwner = some destPk) := by
  have hwd : walletPk ≠ destPk := hown ▸ hnotOwned
  constructor
  · simp [transferNFT, hbal, hown, hwd]
  · by_cases hp : postOwner = some destPk <;>
      simp [transferNFT, hbal, hown, hwd, verifyResult, hp]

/-- Witness for C5: a client-side error together with a matching
post-submission read still yields success. -/
theorem c5_post_read_is_ground_truth_witness :
    ¬ lowBalanceThreshold < lowBalanceThreshold ∧
    (AssetState.mk ⟨"Owner"⟩ none).owner ≠ PubKey.mk "Dest" ∧
    (AssetState.mk ⟨"Owner"⟩ none).owner = PubKey.mk "Owner" ∧
    ((transferNFT lowBalanceThreshold none (some ⟨⟨"Owner"⟩, none⟩) ⟨"Asset"⟩ ⟨"Owner"⟩
        ⟨"Dest"⟩ (SendOutcome.clientError "boom") (some ⟨"Dest"⟩)).sendOutcomes =
      [SendOutcome.clientError "boom"] ∧
    ((transferNFT lowBalanceThreshold none (some ⟨⟨"Owner"⟩, none⟩) ⟨"Asset"⟩ ⟨"Owner"⟩
        ⟨"Dest"⟩ (SendOutcome.clientError "boom") (some ⟨"Dest"⟩)).result =
        TransferRunResult.success ↔ (some (PubKey.mk "Dest") : Option PubKey) =
        some ⟨"Dest"⟩)) :=
  ⟨by decide, by decide, by decide,
    c5_post_read_is_ground_truth lowBalanceThreshold none ⟨⟨"Owner"⟩, none⟩ ⟨"Asset"⟩
      ⟨"Owner"⟩ ⟨"Dest"⟩ (SendOutcome.clientError "boom") (some ⟨"Dest"⟩)
      (by decide) (by decide) (by decide)⟩

/-- C7: when the asset is already owned by the destination, the run
short-circuits with the "no transfer needed" result, builds no transfer
parameters and performs no send. -/
theorem c7_short_circuit (balance : Nat) (envCollection : Option PubKey)
    (asset : AssetState) (assetPk walletPk destPk : PubKey) (send : SendOutcome)
    (postOwner : Option PubKey)
    (hbal : ¬ balance < lowBalanceThreshold) (howned : asset.owner = destPk) :
    transferNFT balance envCollection (some asset) assetPk walletPk destPk send postOwner =
      { raised := none, builtParams := none, sendOutcomes := [],
        result := TransferRunResult.noTransferNeeded } := by
  simp [transferNFT, hbal, howned]

/-- Witness for C7 at concrete keys. -/
theorem c7_short_circuit_witness :
    ¬ lowBalanceThreshold < lowBalanceThreshold ∧
    (AssetState.mk ⟨"Dest"⟩ none).owner = PubKey.mk "Dest" ∧
    transferNFT lowBalanceThreshold none (some ⟨⟨"Dest"⟩, none⟩) ⟨"Asset"⟩ ⟨"Wallet"⟩
        ⟨"Dest"⟩ (SendOutcome.sent "sig") (some ⟨"Dest"⟩) =
      { raised := none, builtParams := none, sendOutcomes := [],
        result := TransferRunResult.noTransferNeeded } :=
  ⟨by decide, by decide,
    c7_short_circuit lowBalanceThreshold none ⟨⟨"Dest"⟩, none⟩ ⟨"Asset"⟩ ⟨"Wallet"⟩
      ⟨"Dest"⟩ (SendOutcome.sent "sig") (some ⟨"Dest"⟩) (by decide) (by decide)⟩

/-- C6 counterexample: the caller is not the asset's current owner, yet —
because the owner already equals the destination and that check runs
first — the run raises no error at all and reports "no transfer needed"
instead of failing with a verification error. -/
theorem c6_not_owner_counterexample :
    PubKey.mk "Wallet" ≠ PubKey.mk "Dest" ∧
    transferNFT lowBalanceThreshold none (some ⟨⟨"Dest"⟩, none⟩) ⟨"Asset"⟩ ⟨"Wallet"⟩
        ⟨"Dest"⟩ (SendOutcome.sent "sig") (some ⟨"Dest"⟩) =
      { raised := none, builtParams := none, sendOutcomes := [],
        result := TransferRunResult.noTransferNeeded } := by
  constructor
  · decide
  · rfl

/-- C6 (amended): when the asset account is not found, or (in the
snowflake script) the account is not owned by the Metaplex Core program,
or the caller is not the current owner while the owner also differs from
the destination, the run fails with a verification error raised before any
transfer parameters are built and before any send, and the verification
step of the snowflake script returns false, aborting before the proposal
is built. -/
theorem c6_verification_failure_aborts (balance : Nat) (envCollection : Option PubKey)
    (assetPk walletPk destPk ownerPk progOwner : PubKey) (cOpt : Option PubKey)
    (send : SendOutcome) (dataLen : Nat)
    (hbal : ¬ balance < lowBalanceThreshold)
    (hnotDest : ownerPk ≠ destPk) (hnotOwner : ownerPk ≠ walletPk)
    (hprog : progOwner ≠ METAPLEX_CORE_PROGRAM_ID) :
    transferNFT balance envCollection none assetPk walletPk destPk send none =
      { raised := some (TransferError.verificationError "Asset not found on chain"),
        builtParams := none, sendOutcomes := [], result := TransferRunResult.failure } ∧
    transferNFT balance envCollection (some ⟨ownerPk, cOpt⟩) assetPk walletPk destPk send
        (some ownerPk) =
      { raised := some (TransferError.verificationError
          "You are not the owner of this asset"),
        builtParams := none, sendOutcomes := [], result := TransferRunResult.failure } ∧
    verifyNFTInSafe (some ⟨progOwner, dataLen⟩) = false ∧
    verifyNFTInSafe none = false := by
  refine ⟨?_, ?_, ?_, rfl⟩
  · simp [transferNFT, hbal, verifyResult]
  · simp [transferNFT, hbal, hnotDest, hnotOwner, verifyResult]
  · simp [verifyNFTInSafe, hprog]

/-- Witness for the amended C6 at concrete keys. -/
theorem c6_verification_failure_aborts_witness :
    ¬ lowBalanceThreshold < lowBalanceThreshold ∧
    PubKey.mk "Other" ≠ PubKey.mk "Dest" ∧
    PubKey.mk "Other" ≠ PubKey.mk "Wallet" ∧
    PubKey.mk "NotCore" ≠ METAPLEX_CORE_PROGRAM_ID ∧
    (transferNFT lowBalanceThreshold none none ⟨"Asset"⟩ ⟨"Wallet"⟩ ⟨"Dest"⟩
        (SendOutcome.sent "sig") none =
      { raised := some (TransferError.verificationError "Asset not found on chain"),
        builtParams := none, sendOutcomes := [], result := TransferRunResult.failure } ∧
    transferNFT lowBalanceThreshold none (some ⟨⟨"Other"⟩, none⟩) ⟨"Asset"⟩ ⟨"Wallet"⟩
        ⟨"Dest"⟩ (SendOutcome.sent "sig") (some ⟨"Other"⟩) =
      { raised := some (TransferError.verificationError
          "You are not the owner of this asset"),
        builtParams := none, sendOutcomes := [], result := TransferRunResult.failure } ∧
    verifyNFTInSafe (some ⟨⟨"NotCore"⟩, 42⟩) = false ∧
    verifyNFTInSafe none = false) :=
  ⟨by decide, by decide, by decide, by decide,
    c6_verification_failure_aborts lowBalanceThreshold none ⟨"Asset"⟩ ⟨"Wallet"⟩ ⟨"Dest"⟩
      ⟨"Other"⟩ ⟨"NotCore"⟩ none (SendOutcome.sent "sig") 42
      (by decide) (by decide) (by decide) (by decide)⟩
